import Mathlib

/-!
Verification of the cheeseshirt conversation core.

This file gives a shallow embedding of the conversation state machine,
session store, dialogue-engine adapter, referral resolver and
payment-webhook reconciliation of the cheeseshirt repository, translated
from `src/api/src/sessions.ts`, `src/api/src/server.ts`, the monger
integration module and the referral-lookup handler, and proves the
specified properties about them.

Timestamps (ISO strings in the source) are modelled as abstract `Nat`
instants; the only operation the embedded code performs on them is the
order comparison in `isCustomerBlocked` and storing them.  The session
store (`Map<string, Session>`) is modelled as a function
`String → Option Session` with functional update; all embedded
operations only ever read or replace the entry of one key, so this is
faithful to the mutable map.
-/

namespace Cheeseshirt

/-- Shipping address, from `sessions.ts` (`ShippingAddress`): every field
independently nullable except `country`. -/
structure ShippingAddress where
  name : Option String
  line1 : Option String
  city : Option String
  state : Option String
  zip : Option String
  country : String
  deriving DecidableEq, Repr

/-- Checkout state, from `sessions.ts` (`CheckoutState`). -/
structure CheckoutState where
  shipping : ShippingAddress
  email : Option String
  deriving DecidableEq, Repr

/-- The all-null checkout state used as the initial/default value
(`{ shipping: { name: null, ... country: 'US' }, email: null }`). -/
def emptyCheckout : CheckoutState :=
  { shipping := { name := none, line1 := none, city := none, state := none,
                  zip := none, country := "US" },
    email := none }

/-- A conversation message, from `sessions.ts` (`Message`). -/
structure Message where
  role : String
  content : String
  timestamp : Nat
  deriving DecidableEq, Repr

/-- A session record, from `sessions.ts` (`Session`). -/
structure Session where
  id : String
  customerId : String
  createdAt : Nat
  lastMessageAt : Nat
  conversationState : String
  messages : List Message
  collectedSize : Option String
  collectedPhrase : Option String
  collectedAffirmation : Bool
  referrerEmail : Option String
  discountCode : Option String
  checkoutState : CheckoutState
  diagnosticMode : Bool
  deriving DecidableEq, Repr

/-- The in-memory session store `Map<string, Session>`, as a lookup
function. -/
def SessionStore := String → Option Session

/-- Functional update of one key of the store (the effect of mutating the
object obtained from `sessions.get(id)` in place). -/
def storeSet (store : SessionStore) (sessionId : String) (s : Session) : SessionStore :=
  fun k => if k = sessionId then some s else store k

/-- `createSession(sessionId, customerId)` from `sessions.ts`: inserts a
fresh session with state `greeting`, no messages, nothing collected, the
all-null checkout state and diagnostic mode off. -/
def createSession (store : SessionStore) (sessionId customerId : String) (now : Nat) :
    SessionStore × Session :=
  let s : Session :=
    { id := sessionId, customerId := customerId, createdAt := now,
      lastMessageAt := now, conversationState := "greeting", messages := [],
      collectedSize := none, collectedPhrase := none,
      collectedAffirmation := false, referrerEmail := none,
      discountCode := none, checkoutState := emptyCheckout,
      diagnosticMode := false }
  (storeSet store sessionId s, s)

/-- `getSession(sessionId)` from `sessions.ts`: `sessions.get(sessionId)`,
`undefined` when absent. -/
def getSession (store : SessionStore) (sessionId : String) : Option Session :=
  store sessionId

/-- The updatable fields of `updateSession`, i.e. the fields of
`Omit<Session, 'id' | 'customerId' | 'createdAt'>`, each optionally
present.  A `none` field is absent from the update object; a `some`
field is present (possibly carrying the value `none`, i.e. `null`). -/
structure SessionUpdates where
  lastMessageAt : Option Nat := none
  conversationState : Option String := none
  messages : Option (List Message) := none
  collectedSize : Option (Option String) := none
  collectedPhrase : Option (Option String) := none
  collectedAffirmation : Option Bool := none
  referrerEmail : Option (Option String) := none
  discountCode : Option (Option String) := none
  checkoutState : Option CheckoutState := none
  diagnosticMode : Option Bool := none
  deriving DecidableEq, Repr

/-- The merge `Object.assign(session, updates, { lastMessageAt: now })`:
present fields overwrite, absent fields keep their previous value, and
`lastMessageAt` is set to the current time last of all (so it always
wins, even over an update that carries its own `lastMessageAt`). -/
def applyUpdates (s : Session) (u : SessionUpdates) (now : Nat) : Session :=
  { s with
    conversationState := u.conversationState.getD s.conversationState,
    messages := u.messages.getD s.messages,
    collectedSize := u.collectedSize.getD s.collectedSize,
    collectedPhrase := u.collectedPhrase.getD s.collectedPhrase,
    collectedAffirmation := u.collectedAffirmation.getD s.collectedAffirmation,
    referrerEmail := u.referrerEmail.getD s.referrerEmail,
    discountCode := u.discountCode.getD s.discountCode,
    checkoutState := u.checkoutState.getD s.checkoutState,
    diagnosticMode := u.diagnosticMode.getD s.diagnosticMode,
    lastMessageAt := now }

/-- `updateSession(sessionId, updates)` from `sessions.ts`: returns
`undefined` and leaves the store untouched when the id is unknown,
otherwise merges the updates into the stored session and returns it. -/
def updateSession (store : SessionStore) (sessionId : String) (u : SessionUpdates)
    (now : Nat) : SessionStore × Option Session :=
  match getSession store sessionId with
  | none => (store, none)
  | some s =>
      let s' := applyUpdates s u now
      (storeSet store sessionId s', some s')

/-- `addMessage(sessionId, role, content)` from `sessions.ts`: appends a
message and bumps `lastMessageAt`; a no-op on an unknown id. -/
def addMessage (store : SessionStore) (sessionId role content : String) (now : Nat) :
    SessionStore :=
  match getSession store sessionId with
  | none => store
  | some s =>
      storeSet store sessionId
        { s with messages := s.messages ++ [{ role := role, content := content, timestamp := now }],
                 lastMessageAt := now }

/-- `getMessages(sessionId, limit)` from `sessions.ts`:
`session.messages.slice(-limit)`, the empty list on an unknown id.
JavaScript `slice(-0)` is `slice(0)`, the whole array, so `limit = 0`
returns every message. -/
def getMessages (store : SessionStore) (sessionId : String) (limit : Nat) : List Message :=
  match getSession store sessionId with
  | none => []
  | some s =>
      if limit = 0 then s.messages else s.messages.drop (s.messages.length - limit)

/-- `clearMessages(sessionId)` from `sessions.ts`: empties the message
list (without bumping `lastMessageAt`); a no-op on an unknown id. -/
def clearMessages (store : SessionStore) (sessionId : String) : SessionStore :=
  match getSession store sessionId with
  | none => store
  | some s => storeSet store sessionId { s with messages := [] }

/-- Customer state stored in the browser cookie, from `server.ts`
(`CustomerState`). -/
structure CustomerState where
  id : String
  shirtsBought : Nat
  lastPurchase : Option Nat
  blockedUntil : Option Nat
  deriving DecidableEq, Repr

/-- `isCustomerBlocked(customer)` from `server.ts`:
`blockedUntil != null && new Date(blockedUntil) > new Date()`. -/
def isCustomerBlocked (customer : CustomerState) (now : Nat) : Bool :=
  match customer.blockedUntil with
  | none => false
  | some t => now < t

/-- The structured state of a dialogue-engine turn result, from
`monger.ts` (`MongerResponse.state`), after the field-renaming
conversion from the wire format. -/
structure MongerState where
  hasAffirmation : Bool
  size : Option String
  phrase : Option String
  pendingConfirmation : Bool
  readyForCheckout : Bool
  readyForPayment : Bool
  mood : String
  wantsReferralCheck : Option String
  checkout : CheckoutState
  deriving DecidableEq, Repr

/-- Presentation hints, from `monger.ts` (`UIHints`). -/
structure UIHints where
  skipTypewriter : Bool
  showPaymentForm : Bool
  blocked : Bool
  inputDisabled : Bool
  deriving DecidableEq, Repr

/-- A dialogue-engine turn result, from `monger.ts` (`MongerResponse`). -/
structure MongerResponse where
  reply : String
  state : MongerState
  uiHints : UIHints
  deriving DecidableEq, Repr

/-- The fixed in-character fallback line returned when the Monger
service call fails (`monger.ts`, the catch branch of `getMongerReply`).
The apostrophe is written as an escape. -/
def fallbackLine : String := "...signal\x27s bad.  say that again."

/-- The conversation-state string computed from an engine turn result
(`monger.ts` lines 224-229 and, identically, `server.ts` lines
489-494): `ready_for_payment` when the engine flags payment readiness,
else `collecting_shipping` when it flags checkout readiness, else
`conversation`. -/
def convStateOf (st : MongerState) : String :=
  if st.readyForPayment then "ready_for_payment"
  else if st.readyForCheckout then "collecting_shipping"
  else "conversation"

/-- The fallback turn result built from the session's stored state
(`monger.ts`, catch branch of `getMongerReply`): echoes the collected
fields and checkout state, clears both readiness flags, neutral mood. -/
def fallbackResponse (session : Session) : MongerResponse :=
  { reply := fallbackLine,
    state := { hasAffirmation := session.collectedAffirmation,
               size := session.collectedSize,
               phrase := session.collectedPhrase,
               pendingConfirmation := false,
               readyForCheckout := false,
               readyForPayment := false,
               mood := "neutral",
               wantsReferralCheck := none,
               checkout := session.checkoutState },
    uiHints := { skipTypewriter := false, showPaymentForm := false,
                 blocked := false, inputDisabled := false } }

/-- The session update performed after a successful engine turn
(`monger.ts` lines 232-238): the conversation state computed from the
engine flags, and the engine-reported collected fields and checkout
state stored verbatim. -/
def personaUpdates (st : MongerState) : SessionUpdates :=
  { conversationState := some (convStateOf st),
    collectedAffirmation := some st.hasAffirmation,
    collectedSize := some st.size,
    collectedPhrase := some st.phrase,
    checkoutState := some st.checkout }

/-- `getMongerReply(sessionId, userInput, customer)` from `monger.ts`.
The one suspending operation, `mongerClient.chat`, is passed in as its
outcome: `some r` when the service call succeeded with (converted)
result `r`, `none` when it threw.  Returns `none` when the session id
is unknown (the function throws in that case); otherwise returns the
updated store and the turn result.  On success it appends both
messages, computes the conversation state from the engine flags alone
and merges the engine-reported fields into the session verbatim; on
failure it returns the fallback result and leaves the store
untouched.  The session update merged on success — conversation state
from the flags, plus the engine's collected fields verbatim — is
factored out as `personaUpdates`. -/
def getMongerReply (store : SessionStore) (sessionId userInput : String)
    (engine : Option MongerResponse) (now : Nat) :
    Option (SessionStore × MongerResponse) :=
  match getSession store sessionId with
  | none => none
  | some session =>
      match engine with
      | some resp =>
          let store := addMessage store sessionId "user" userInput now
          let store := addMessage store sessionId "assistant" resp.reply now
          let store := (updateSession store sessionId (personaUpdates resp.state) now).1
          some (store, resp)
      | none => some (store, fallbackResponse session)

/-- JavaScript whitespace for `trim` (space, tab, newline, carriage
return suffice for the inputs considered here). -/
def wsChar (c : Char) : Bool := c == ' ' || c == '\t' || c == '\n' || c == '\r'

/-- `String.prototype.trim`: strip leading and trailing whitespace. -/
def trimChars (s : List Char) : List Char :=
  ((s.dropWhile wsChar).reverse.dropWhile wsChar).reverse

/-- `String.prototype.startsWith` on character lists. -/
def beginsWith : List Char → List Char → Bool
  | _, [] => true
  | [], _ :: _ => false
  | c :: cs, d :: ds => c == d && beginsWith cs ds

/-- `userInput.toLowerCase().trim()` on the character-list view of the
string. -/
def jsLowerTrim (s : String) : List Char := trimChars (s.data.map Char.toLower)

/-- `DIAGNOSTIC_ENTER_PHRASES` from `monger.ts`. -/
def DIAGNOSTIC_ENTER_PHRASES : List String :=
  ["diagnostic", "enter diagnostic", "diagnostic mode"]

/-- `DIAGNOSTIC_EXIT_PHRASES` from `monger.ts`. -/
def DIAGNOSTIC_EXIT_PHRASES : List String :=
  ["leave diagnostic", "exit diagnostic", "back to character", "resume character"]

/-- `shouldEnterDiagnostic(userInput)` from `monger.ts`: the lowercased,
trimmed input equals an entry phrase or starts with an entry phrase
followed by a space. -/
def shouldEnterDiagnostic (userInput : String) : Bool :=
  let lower := jsLowerTrim userInput
  DIAGNOSTIC_ENTER_PHRASES.any fun phrase =>
    lower == phrase.data || beginsWith lower (phrase.data ++ [' '])

/-- `shouldExitDiagnostic(userInput)` from `monger.ts`: the lowercased,
trimmed input equals an exit phrase or starts with one (no trailing
space required here, unlike entry). -/
def shouldExitDiagnostic (userInput : String) : Bool :=
  let lower := jsLowerTrim userInput
  DIAGNOSTIC_EXIT_PHRASES.any fun phrase =>
    lower == phrase.data || beginsWith lower phrase.data

/-- `getDiagnosticEntryMessage()` from `monger.ts`, verbatim (apostrophes
escaped). -/
def getDiagnosticEntryMessage : String :=
  "[DIAGNOSTIC MODE ENABLED]\n\nI\x27ve dropped character. I\x27m now a helpful assistant for the cheeseshirt system.\n\nYou can ask me about:\n• Service health and versions\n• Log files (try \"show me the api logs\")  \n• System status\n• Troubleshooting help\n\nSay \"leave diagnostic\" to return me to character."

/-- `getDiagnosticExitMessage()` from `monger.ts`, verbatim. -/
def getDiagnosticExitMessage : String :=
  "[DIAGNOSTIC MODE DISABLED]\n\n...where was i.  right.  you here for a shirt?"

/-- `getDiagnosticReply(sessionId, userInput)` from `monger.ts`, with the
`mongerClient.diagnosticChat` call passed in as its outcome (`Except`:
`ok reply` on success, `error msg` when it threw).  On success both
messages are appended to the session; on failure the error is converted
to an error reply and nothing is stored. -/
def getDiagnosticReply (store : SessionStore) (sessionId userInput : String)
    (diagEngine : Except String String) (now : Nat) : SessionStore × String :=
  match diagEngine with
  | .ok reply =>
      let store := addMessage store sessionId "user" userInput now
      let store := addMessage store sessionId "assistant" reply now
      (store, reply)
  | .error msg => (store, "Diagnostic mode error: " ++ msg)

/-- JavaScript falsiness of a nullable string (`!x`): true for `null`
and for the empty string. -/
def strFalsy : Option String → Bool
  | none => true
  | some s => s == ""

/-- The fixed response line for blocked visitors, from `server.ts`
(apostrophes escaped). -/
def blockLine : String := "you wasted the monger\x27s time.  he\x27ll be back later."

/-- The JSON payload of a successful `/api/chat` response, from
`server.ts` (`ChatResponse`, plus the optional keys that only some
branches emit: `pendingConfirmation` appears only on the persona
branch and `diagnosticMode` only on the diagnostic branches). -/
structure ChatResponse where
  mongerReply : String
  conversationState : String
  needsSize : Bool
  needsPhrase : Bool
  needsAffirmation : Bool
  pendingConfirmation : Option Bool
  readyForCheckout : Bool
  readyForPayment : Bool
  wantsReferralCheck : Option String
  mood : String
  collectedSize : Option String
  collectedPhrase : Option String
  checkout : CheckoutState
  uiHints : UIHints
  diagnosticModeFlag : Option Bool
  deriving DecidableEq, Repr

/-- The possible outcomes of one `/api/chat` turn: the 400 for missing
fields, the 404 for an unknown session, the 500 from the persona
branch's catch, or a JSON reply. -/
inductive ChatOutcome where
  | errorMissing : ChatOutcome
  | errorInvalidSession : ChatOutcome
  | errorInternal : ChatOutcome
  | reply : ChatResponse → ChatOutcome
  deriving DecidableEq, Repr

/-- The full effect of one chat turn: the store after the turn, the HTTP
outcome, and how many calls were made to the Monger service's persona
chat endpoint (`mongerClient.chat`) and diagnostic chat endpoint
(`mongerClient.diagnosticChat`). -/
structure TurnResult where
  store : SessionStore
  outcome : ChatOutcome
  personaCalls : Nat
  diagnosticCalls : Nat

/-- The diagnostic-mode entry reply payload (`server.ts` lines 360-375):
the entry message, state `diagnostic`, needs-flags from the session's
stored fields, skip-typewriter on. -/
def entryResponse (session : Session) : ChatResponse :=
  { mongerReply := getDiagnosticEntryMessage,
    conversationState := "diagnostic",
    needsSize := strFalsy session.collectedSize,
    needsPhrase := strFalsy session.collectedPhrase,
    needsAffirmation := !session.collectedAffirmation,
    pendingConfirmation := none,
    readyForCheckout := false, readyForPayment := false,
    wantsReferralCheck := none, mood := "neutral",
    collectedSize := session.collectedSize,
    collectedPhrase := session.collectedPhrase,
    checkout := session.checkoutState,
    uiHints := { skipTypewriter := true, showPaymentForm := false,
                 blocked := false, inputDisabled := false },
    diagnosticModeFlag := some true }

/-- The diagnostic-mode exit reply payload (`server.ts` lines 390-405). -/
def exitResponse (session : Session) : ChatResponse :=
  { mongerReply := getDiagnosticExitMessage,
    conversationState := "conversation",
    needsSize := strFalsy session.collectedSize,
    needsPhrase := strFalsy session.collectedPhrase,
    needsAffirmation := !session.collectedAffirmation,
    pendingConfirmation := none,
    readyForCheckout := false, readyForPayment := false,
    wantsReferralCheck := none, mood := "neutral",
    collectedSize := session.collectedSize,
    collectedPhrase := session.collectedPhrase,
    checkout := session.checkoutState,
    uiHints := { skipTypewriter := false, showPaymentForm := false,
                 blocked := false, inputDisabled := false },
    diagnosticModeFlag := some false }

/-- The diagnostic-mode chat reply payload (`server.ts` lines 413-429). -/
def diagChatResponse (session : Session) (reply : String) : ChatResponse :=
  { mongerReply := reply,
    conversationState := "diagnostic",
    needsSize := false, needsPhrase := false, needsAffirmation := false,
    pendingConfirmation := none,
    readyForCheckout := false, readyForPayment := false,
    wantsReferralCheck := none, mood := "neutral",
    collectedSize := session.collectedSize,
    collectedPhrase := session.collectedPhrase,
    checkout := session.checkoutState,
    uiHints := { skipTypewriter := true, showPaymentForm := false,
                 blocked := false, inputDisabled := false },
    diagnosticModeFlag := some true }

/-- The fixed blocked-visitor reply payload (`server.ts` lines 443-460):
the block line, state `blocked`, suspicious mood, nulled fields, and
UI hints with `blocked` and `inputDisabled` set. -/
def blockedResponse : ChatResponse :=
  { mongerReply := blockLine,
    conversationState := "blocked",
    needsSize := false, needsPhrase := false, needsAffirmation := false,
    pendingConfirmation := none,
    readyForCheckout := false, readyForPayment := false,
    wantsReferralCheck := none, mood := "suspicious",
    collectedSize := none, collectedPhrase := none,
    checkout := emptyCheckout,
    uiHints := { skipTypewriter := false, showPaymentForm := false,
                 blocked := true, inputDisabled := true },
    diagnosticModeFlag := none }

/-- The persona-chat reply payload (`server.ts` lines 496-511), built
from the engine turn result; the conversation state string is
recomputed from the flags with the same formula as in `monger.ts`. -/
def personaResponse (resp : MongerResponse) : ChatResponse :=
  { mongerReply := resp.reply,
    conversationState := convStateOf resp.state,
    needsSize := strFalsy resp.state.size,
    needsPhrase := strFalsy resp.state.phrase,
    needsAffirmation := !resp.state.hasAffirmation,
    pendingConfirmation := some resp.state.pendingConfirmation,
    readyForCheckout := resp.state.readyForCheckout,
    readyForPayment := resp.state.readyForPayment,
    wantsReferralCheck := resp.state.wantsReferralCheck,
    mood := resp.state.mood,
    collectedSize := resp.state.size,
    collectedPhrase := resp.state.phrase,
    checkout := resp.state.checkout,
    uiHints := resp.uiHints,
    diagnosticModeFlag := none }

/-- `handleChat` from `server.ts`: one `/api/chat` turn.  The customer
state is the one parsed from the cookie; the two engine endpoints are
passed in as their outcomes (consumed only if the corresponding branch
is reached, which is what the call counters record).  Branch order, as
in the source: missing-field check, session lookup, diagnostic entry,
diagnostic exit, diagnostic chat, blocked check, persona chat. -/
def handleChat (store : SessionStore) (sessionId userInput : String)
    (customer : CustomerState) (engine : Option MongerResponse)
    (diagEngine : Except String String) (now : Nat) : TurnResult :=
  if sessionId = "" || userInput = "" then
    { store := store, outcome := .errorMissing, personaCalls := 0, diagnosticCalls := 0 }
  else
    match getSession store sessionId with
    | none =>
        { store := store, outcome := .errorInvalidSession,
          personaCalls := 0, diagnosticCalls := 0 }
    | some session =>
        let inDiagnosticMode := session.diagnosticMode
        if !inDiagnosticMode && shouldEnterDiagnostic userInput then
          let store := (updateSession store sessionId
            { conversationState := some "diagnostic", diagnosticMode := some true } now).1
          { store := store, outcome := .reply (entryResponse session),
            personaCalls := 0, diagnosticCalls := 0 }
        else if inDiagnosticMode && shouldExitDiagnostic userInput then
          let store := clearMessages store sessionId
          let store := (updateSession store sessionId
            { conversationState := some "conversation", diagnosticMode := some false } now).1
          { store := store, outcome := .reply (exitResponse session),
            personaCalls := 0, diagnosticCalls := 0 }
        else if inDiagnosticMode then
          let result := getDiagnosticReply store sessionId userInput diagEngine now
          { store := result.1, outcome := .reply (diagChatResponse session result.2),
            personaCalls := 0, diagnosticCalls := 1 }
        else if isCustomerBlocked customer now then
          { store := store, outcome := .reply blockedResponse,
            personaCalls := 0, diagnosticCalls := 0 }
        else
          match getMongerReply store sessionId userInput engine now with
          | none =>
              { store := store, outcome := .errorInternal,
                personaCalls := 1, diagnosticCalls := 0 }
          | some (store', resp) =>
              { store := store', outcome := .reply (personaResponse resp),
                personaCalls := 1, diagnosticCalls := 0 }

/-- A referral-ledger record, from the referral lookup handler
(`referral.total_purchases`, `referral.is_vip`, `referral.discount_percentage`). -/
structure ReferralRecord where
  total_purchases : Int
  is_vip : Bool
  discount_percentage : Int
  deriving DecidableEq, Repr

/-- The tiering block of `handleReferralLookup`: `lookupReferral` result
in, `(status, discountPercentage)` out.  An absent record yields
`("unknown", 0)` without throwing.  For a `buyer`, the source computes
`referral.discount_percentage || 10`, i.e. the stored percentage with 10
substituted when it is falsy (zero). -/
def referralTiering (referral : Option ReferralRecord) : String × Int :=
  match referral with
  | none => ("unknown", 0)
  | some r =>
      if r.total_purchases ≥ 10 then ("ultra", 25)
      else if r.is_vip || r.total_purchases ≥ 5 then ("vip", 20)
      else ("buyer", if r.discount_percentage = 0 then 10 else r.discount_percentage)

/-- The metadata carried on a Stripe payment intent and echoed back on
the webhook (`metadata.session_id`, `metadata.size`,
`metadata.phrase`); each key may be absent. -/
structure PaymentIntentMetadata where
  session_id : Option String
  size : Option String
  phrase : Option String
  deriving DecidableEq, Repr

/-- The state the webhook handler can observe or affect: the session
store, plus the customer states (which live in browser cookies; the
webhook handler has no access to them, and the embedding records that
by carrying them through). -/
structure WebhookCtx where
  store : SessionStore
  customers : String → CustomerState

/-- The `payment_intent.succeeded` branch of `handleStripeWebhook` from
`server.ts`: when the metadata carries a (truthy) session id and that
session exists, merge `conversationState = purchase_complete`,
`collectedAffirmation = true` and the metadata's size and phrase into
the session.  No customer state is touched: the source comments that
`shirtsBought` is updated on the frontend, and the handler performs no
such update. -/
def handlePaymentSucceeded (ctx : WebhookCtx) (metadata : PaymentIntentMetadata)
    (now : Nat) : WebhookCtx :=
  match metadata.session_id with
  | none => ctx
  | some sid =>
      if sid = "" then ctx
      else
        match getSession ctx.store sid with
        | none => ctx
        | some _ =>
            { ctx with
              store := (updateSession ctx.store sid
                { conversationState := some "purchase_complete",
                  collectedAffirmation := some true,
                  collectedSize := some metadata.size,
                  collectedPhrase := some metadata.phrase } now).1 }

/-- The conversation state of a stored session, if the session exists. -/
def storedConvState (store : SessionStore) (sessionId : String) : Option String :=
  (getSession store sessionId).map Session.conversationState

/-- The collected size of a stored session, if the session exists. -/
def storedSize (store : SessionStore) (sessionId : String) : Option (Option String) :=
  (getSession store sessionId).map Session.collectedSize

/-- The collected phrase of a stored session, if the session exists. -/
def storedPhrase (store : SessionStore) (sessionId : String) : Option (Option String) :=
  (getSession store sessionId).map Session.collectedPhrase

/-- The collected affirmation flag of a stored session, if the session
exists. -/
def storedAffirmation (store : SessionStore) (sessionId : String) : Option Bool :=
  (getSession store sessionId).map Session.collectedAffirmation

/-- The checkout state of a stored session, if the session exists. -/
def storedCheckout (store : SessionStore) (sessionId : String) : Option CheckoutState :=
  (getSession store sessionId).map Session.checkoutState

/-- The diagnostic-mode flag of a stored session, if the session exists. -/
def storedDiagMode (store : SessionStore) (sessionId : String) : Option Bool :=
  (getSession store sessionId).map Session.diagnosticMode

/-- The message list of a stored session, if the session exists. -/
def storedMessages (store : SessionStore) (sessionId : String) : Option (List Message) :=
  (getSession store sessionId).map Session.messages

/-- The reply text of a chat outcome, if it is a reply. -/
def outcomeReply : ChatOutcome → Option String
  | .reply r => some r.mongerReply
  | _ => none

/-- The UI hints of a chat outcome, if it is a reply. -/
def outcomeHints : ChatOutcome → Option UIHints
  | .reply r => some r.uiHints
  | _ => none

lemma getSession_storeSet_self (store : SessionStore) (sessionId : String) (s : Session) :
    getSession (storeSet store sessionId s) sessionId = some s := by
  simp [getSession, storeSet]

lemma getSession_addMessage (store : SessionStore) (sessionId role content : String)
    (now : Nat) (s : Session) (h : getSession store sessionId = some s) :
    getSession (addMessage store sessionId role content now) sessionId =
      some { s with
             messages := s.messages ++ [{ role := role, content := content, timestamp := now }],
             lastMessageAt := now } := by
  simp [addMessage, h, getSession_storeSet_self]

lemma getSession_updateSession (store : SessionStore) (sessionId : String)
    (u : SessionUpdates) (now : Nat) (s : Session) (h : getSession store sessionId = some s) :
    getSession (updateSession store sessionId u now).1 sessionId =
      some (applyUpdates s u now) := by
  simp [updateSession, h, getSession_storeSet_self]

lemma getSession_personaStore (store : SessionStore) (sessionId userInput : String)
    (r : MongerResponse) (now : Nat) (s : Session)
    (h : getSession store sessionId = some s) :
    getSession (updateSession (addMessage (addMessage store sessionId "user" userInput now)
        sessionId "assistant" r.reply now) sessionId (personaUpdates r.state) now).1 sessionId =
      some { s with
        messages := s.messages ++
          [{ role := "user", content := userInput, timestamp := now },
           { role := "assistant", content := r.reply, timestamp := now }],
        lastMessageAt := now,
        conversationState := convStateOf r.state,
        collectedAffirmation := r.state.hasAffirmation,
        collectedSize := r.state.size,
        collectedPhrase := r.state.phrase,
        checkoutState := r.state.checkout } := by
  have h' : store sessionId = some s := h
  simp [addMessage, updateSession, getSession, storeSet, h', applyUpdates, personaUpdates]

lemma handleChat_enter (store : SessionStore) (sessionId userInput : String)
    (customer : CustomerState) (engine : Option MongerResponse)
    (diagEngine : Except String String) (now : Nat) (s : Session)
    (h : getSession store sessionId = some s) (hd : s.diagnosticMode = false)
    (he : shouldEnterDiagnostic userInput = true)
    (hsid : sessionId ≠ "") (hu : userInput ≠ "") :
    handleChat store sessionId userInput customer engine diagEngine now =
      { store := (updateSession store sessionId
          { conversationState := some "diagnostic", diagnosticMode := some true } now).1,
        outcome := .reply (entryResponse s), personaCalls := 0, diagnosticCalls := 0 } := by
  simp [handleChat, h, hd, he, hsid, hu]

lemma handleChat_exit (store : SessionStore) (sessionId userInput : String)
    (customer : CustomerState) (engine : Option MongerResponse)
    (diagEngine : Except String String) (now : Nat) (s : Session)
    (h : getSession store sessionId = some s) (hd : s.diagnosticMode = true)
    (hx : shouldExitDiagnostic userInput = true)
    (hsid : sessionId ≠ "") (hu : userInput ≠ "") :
    handleChat store sessionId userInput customer engine diagEngine now =
      { store := (updateSession (clearMessages store sessionId) sessionId
          { conversationState := some "conversation", diagnosticMode := some false } now).1,
        outcome := .reply (exitResponse s), personaCalls := 0, diagnosticCalls := 0 } := by
  simp [handleChat, h, hd, hx, hsid, hu]

lemma handleChat_diagChat (store : SessionStore) (sessionId userInput : String)
    (customer : CustomerState) (engine : Option MongerResponse)
    (diagEngine : Except String String) (now : Nat) (s : Session)
    (h : getSession store sessionId = some s) (hd : s.diagnosticMode = true)
    (hx : shouldExitDiagnostic userInput = false)
    (hsid : sessionId ≠ "") (hu : userInput ≠ "") :
    handleChat store sessionId userInput customer engine diagEngine now =
      { store := (getDiagnosticReply store sessionId userInput diagEngine now).1,
        outcome := .reply (diagChatResponse s
          (getDiagnosticReply store sessionId userInput diagEngine now).2),
        personaCalls := 0, diagnosticCalls := 1 } := by
  simp [handleChat, h, hd, hx, hsid, hu]

lemma handleChat_blocked (store : SessionStore) (sessionId userInput : String)
    (customer : CustomerState) (engine : Option MongerResponse)
    (diagEngine : Except String String) (now : Nat) (s : Session)
    (h : getSession store sessionId = some s) (hd : s.diagnosticMode = false)
    (he : shouldEnterDiagnostic userInput = false)
    (hb : isCustomerBlocked customer now = true)
    (hsid : sessionId ≠ "") (hu : userInput ≠ "") :
    handleChat store sessionId userInput customer engine diagEngine now =
      { store := store, outcome := .reply blockedResponse,
        personaCalls := 0, diagnosticCalls := 0 } := by
  simp [handleChat, h, hd, he, hb, hsid, hu]

lemma handleChat_persona (store : SessionStore) (sessionId userInput : String)
    (customer : CustomerState) (r : MongerResponse)
    (diagEngine : Except String String) (now : Nat) (s : Session)
    (h : getSession store sessionId = some s) (hd : s.diagnosticMode = false)
    (he : shouldEnterDiagnostic userInput = false)
    (hb : isCustomerBlocked customer now = false)
    (hsid : sessionId ≠ "") (hu : userInput ≠ "") :
    handleChat store sessionId userInput customer (some r) diagEngine now =
      { store := (updateSession
          (addMessage (addMessage store sessionId "user" userInput now)
            sessionId "assistant" r.reply now)
          sessionId (personaUpdates r.state) now).1,
        outcome := .reply (personaResponse r),
        personaCalls := 1, diagnosticCalls := 0 } := by
  simp [handleChat, getMongerReply, h, hd, he, hb, hsid, hu]

lemma handleChat_persona_fail (store : SessionStore) (sessionId userInput : String)
    (customer : CustomerState) (diagEngine : Except String String) (now : Nat) (s : Session)
    (h : getSession store sessionId = some s) (hd : s.diagnosticMode = false)
    (he : shouldEnterDiagnostic userInput = false)
    (hb : isCustomerBlocked customer now = false)
    (hsid : sessionId ≠ "") (hu : userInput ≠ "") :
    handleChat store sessionId userInput customer none diagEngine now =
      { store := store, outcome := .reply (personaResponse (fallbackResponse s)),
        personaCalls := 1, diagnosticCalls := 0 } := by
  simp [handleChat, getMongerReply, h, hd, he, hb, hsid, hu]

/-- The store with no sessions at all. -/
def emptyStore : SessionStore := fun _ => none

/-- A sample session used to instantiate the store theorems: mid-dialogue
state with a collected size and one message. -/
def sampleSession : Session :=
  { id := "s1", customerId := "c1", createdAt := 0, lastMessageAt := 3,
    conversationState := "conversation",
    messages := [{ role := "assistant", content := "you here for a shirt?", timestamp := 1 }],
    collectedSize := some "l", collectedPhrase := none,
    collectedAffirmation := true, referrerEmail := none, discountCode := none,
    checkoutState := emptyCheckout, diagnosticMode := false }

/-- A one-session store holding `sampleSession` under id `s1`. -/
def sampleStore : SessionStore := fun k => if k = "s1" then some sampleSession else none

/-- C9: `updateSession` on an existing session performs a merge, not a
replace: every updatable field absent from the partial keeps its
previous value, every field present in the partial takes the partial's
value, the identity fields are untouched, and `lastMessageAt` is always
set to the current time — even when the partial carries its own
`lastMessageAt`.  The merged session is both returned and stored. -/
theorem c9_updateSession_merges (store : SessionStore) (sessionId : String)
    (s : Session) (u : SessionUpdates) (now : Nat)
    (h : getSession store sessionId = some s) :
    ∃ s', (updateSession store sessionId u now).2 = some s' ∧
      getSession (updateSession store sessionId u now).1 sessionId = some s' ∧
      s'.lastMessageAt = now ∧
      s'.id = s.id ∧ s'.customerId = s.customerId ∧ s'.createdAt = s.createdAt ∧
      (u.conversationState = none → s'.conversationState = s.conversationState) ∧
      (∀ v, u.conversationState = some v → s'.conversationState = v) ∧
      (u.messages = none → s'.messages = s.messages) ∧
      (∀ v, u.messages = some v → s'.messages = v) ∧
      (u.collectedSize = none → s'.collectedSize = s.collectedSize) ∧
      (∀ v, u.collectedSize = some v → s'.collectedSize = v) ∧
      (u.collectedPhrase = none → s'.collectedPhrase = s.collectedPhrase) ∧
      (∀ v, u.collectedPhrase = some v → s'.collectedPhrase = v) ∧
      (u.collectedAffirmation = none → s'.collectedAffirmation = s.collectedAffirmation) ∧
      (∀ v, u.collectedAffirmation = some v → s'.collectedAffirmation = v) ∧
      (u.referrerEmail = none → s'.referrerEmail = s.referrerEmail) ∧
      (∀ v, u.referrerEmail = some v → s'.referrerEmail = v) ∧
      (u.discountCode = none → s'.discountCode = s.discountCode) ∧
      (∀ v, u.discountCode = some v → s'.discountCode = v) ∧
      (u.checkoutState = none → s'.checkoutState = s.checkoutState) ∧
      (∀ v, u.checkoutState = some v → s'.checkoutState = v) ∧
      (u.diagnosticMode = none → s'.diagnosticMode = s.diagnosticMode) ∧
      (∀ v, u.diagnosticMode = some v → s'.diagnosticMode = v) := by
  refine ⟨applyUpdates s u now, ?_, getSession_updateSession store sessionId u now s h, ?_⟩
  · simp [updateSession, h]
  · refine ⟨rfl, rfl, rfl, rfl, ?_, ?_, ?_, ?_, ?_, ?_, ?_, ?_, ?_, ?_, ?_, ?_, ?_, ?_,
      ?_, ?_, ?_, ?_⟩ <;>
    · intro hv
      first
      | simp [applyUpdates, hv]
      | (intro hv2; simp [applyUpdates, hv2])

/-- Closed instance of C9: a concrete merge on `sampleStore` that updates
`conversationState` while preserving the previously collected size. -/
theorem c9_updateSession_merges_witness :
    getSession sampleStore "s1" = some sampleSession ∧
    ∃ s', (updateSession sampleStore "s1"
             { conversationState := some "collecting_shipping" } 7).2 = some s' ∧
      getSession (updateSession sampleStore "s1"
             { conversationState := some "collecting_shipping" } 7).1 "s1" = some s' ∧
      s'.lastMessageAt = 7 ∧
      s'.id = sampleSession.id ∧ s'.customerId = sampleSession.customerId ∧
      s'.createdAt = sampleSession.createdAt ∧
      ((SessionUpdates.conversationState
          { conversationState := some "collecting_shipping" }) = none →
        s'.conversationState = sampleSession.conversationState) ∧
      (∀ v, (SessionUpdates.conversationState
          { conversationState := some "collecting_shipping" }) = some v →
        s'.conversationState = v) ∧
      ((SessionUpdates.messages { conversationState := some "collecting_shipping" }) = none →
        s'.messages = sampleSession.messages) ∧
      (∀ v, (SessionUpdates.messages
          { conversationState := some "collecting_shipping" }) = some v → s'.messages = v) ∧
      ((SessionUpdates.collectedSize
          { conversationState := some "collecting_shipping" }) = none →
        s'.collectedSize = sampleSession.collectedSize) ∧
      (∀ v, (SessionUpdates.collectedSize
          { conversationState := some "collecting_shipping" }) = some v →
        s'.collectedSize = v) ∧
      ((SessionUpdates.collectedPhrase
          { conversationState := some "collecting_shipping" }) = none →
        s'.collectedPhrase = sampleSession.collectedPhrase) ∧
      (∀ v, (SessionUpdates.collectedPhrase
          { conversationState := some "collecting_shipping" }) = some v →
        s'.collectedPhrase = v) ∧
      ((SessionUpdates.collectedAffirmation
          { conversationState := some "collecting_shipping" }) = none →
        s'.collectedAffirmation = sampleSession.collectedAffirmation) ∧
      (∀ v, (SessionUpdates.collectedAffirmation
          { conversationState := some "collecting_shipping" }) = some v →
        s'.collectedAffirmation = v) ∧
      ((SessionUpdates.referrerEmail
          { conversationState := some "collecting_shipping" }) = none →
        s'.referrerEmail = sampleSession.referrerEmail) ∧
      (∀ v, (SessionUpdates.referrerEmail
          { conversationState := some "collecting_shipping" }) = some v →
        s'.referrerEmail = v) ∧
      ((SessionUpdates.discountCode
          { conversationState := some "collecting_shipping" }) = none →
        s'.discountCode = sampleSession.discountCode) ∧
      (∀ v, (SessionUpdates.discountCode
          { conversationState := some "collecting_shipping" }) = some v →
        s'.discountCode = v) ∧
      ((SessionUpdates.checkoutState
          { conversationState := some "collecting_shipping" }) = none →
        s'.checkoutState = sampleSession.checkoutState) ∧
      (∀ v, (SessionUpdates.checkoutState
          { conversationState := some "collecting_shipping" }) = some v →
        s'.checkoutState = v) ∧
      ((SessionUpdates.diagnosticMode
          { conversationState := some "collecting_shipping" }) = none →
        s'.diagnosticMode = sampleSession.diagnosticMode) ∧
      (∀ v, (SessionUpdates.diagnosticMode
          { conversationState := some "collecting_shipping" }) = some v →
        s'.diagnosticMode = v) :=
  ⟨rfl, c9_updateSession_merges sampleStore "s1" sampleSession
    { conversationState := some "collecting_shipping" } 7 rfl⟩

/-- C10: every session-store operation on an unknown session id is total
and returns without effect: `getSession` and `updateSession` yield
`undefined`, `addMessage` and `clearMessages` leave the store exactly
as it was, and `getMessages` yields the empty list. -/
theorem c10_unknown_id_total (store : SessionStore) (sessionId role content : String)
    (u : SessionUpdates) (now limit : Nat)
    (h : getSession store sessionId = none) :
    updateSession store sessionId u now = (store, none) ∧
    addMessage store sessionId role content now = store ∧
    clearMessages store sessionId = store ∧
    getMessages store sessionId limit = [] := by
  refine ⟨?_, ?_, ?_, ?_⟩ <;> simp [updateSession, addMessage, clearMessages, getMessages, h]

/-- Closed instance of C10 on the empty store. -/
theorem c10_unknown_id_total_witness :
    getSession emptyStore "nope" = none ∧
    (updateSession emptyStore "nope" { diagnosticMode := some true } 4 = (emptyStore, none) ∧
     addMessage emptyStore "nope" "user" "hi" 4 = emptyStore ∧
     clearMessages emptyStore "nope" = emptyStore ∧
     getMessages emptyStore "nope" 10 = []) :=
  ⟨rfl, c10_unknown_id_total emptyStore "nope" "user" "hi"
    { diagnosticMode := some true } 4 10 rfl⟩

/-- C8 counterexample: the claim asserts that `totalPurchases = 9` with
`isVip = false` yields tier `buyer`, but the lookup's second branch
(`isVip || totalPurchases >= 5`) already matches at 9, so the code
yields `vip` with a 20% discount. -/
theorem c8_counterexample :
    (referralTiering (some { total_purchases := 9, is_vip := false,
                             discount_percentage := 10 })).1 = "vip" ∧
    (referralTiering (some { total_purchases := 9, is_vip := false,
                             discount_percentage := 10 })).1 ≠ "buyer" ∧
    (referralTiering (some { total_purchases := 9, is_vip := false,
                             discount_percentage := 10 })).2 = 20 := by
  refine ⟨rfl, ?_, rfl⟩
  decide

/-- C8 (amended): the referral lookup assigns the tier by strict
first-match priority — `totalPurchases >= 10` yields `ultra`, otherwise
`isVip || totalPurchases >= 5` yields `vip`, otherwise an existing
record yields `buyer`, and a missing record yields `unknown` with
discount 0 without throwing.  At the boundaries: 10 yields `ultra`,
5 (non-VIP) yields `vip`, and 9 (non-VIP) also yields `vip` — not
`buyer` as the original claim stated. -/
theorem c8_referral_tiering (r : ReferralRecord) :
    referralTiering none = ("unknown", 0) ∧
    (r.total_purchases ≥ 10 → referralTiering (some r) = ("ultra", 25)) ∧
    (r.total_purchases < 10 → (r.is_vip = true ∨ r.total_purchases ≥ 5) →
      referralTiering (some r) = ("vip", 20)) ∧
    (r.total_purchases < 10 → r.is_vip = false → r.total_purchases < 5 →
      (referralTiering (some r)).1 = "buyer") ∧
    (referralTiering (some { total_purchases := 10, is_vip := false,
                             discount_percentage := 0 })).1 = "ultra" ∧
    (referralTiering (some { total_purchases := 5, is_vip := false,
                             discount_percentage := 0 })).1 = "vip" ∧
    (referralTiering (some { total_purchases := 9, is_vip := false,
                             discount_percentage := 0 })).1 = "vip" := by
  refine ⟨rfl, ?_, ?_, ?_, by decide, by decide, by decide⟩
  · intro h10
    simp [referralTiering, if_pos h10]
  · intro h10 hvip
    have hnot : ¬ r.total_purchases ≥ 10 := by omega
    rcases hvip with hv | h5
    · simp [referralTiering, if_neg hnot, hv]
    · simp [referralTiering, if_neg hnot, if_pos h5]
      intro _
      exact h5
  · intro h10 hv h5
    have hnot : ¬ r.total_purchases ≥ 10 := by omega
    have hnot5 : ¬ r.total_purchases ≥ 5 := by omega
    simp [referralTiering, if_neg hnot, hv, if_neg hnot5]

/-- Closed instance of C8: the boundary records 10 and 5 resolve to
`ultra` and `vip` respectively, and a present record below both
thresholds resolves to `buyer`. -/
theorem c8_referral_tiering_witness :
    ((10:Int) ≥ 10 ∧
      referralTiering (some { total_purchases := 10, is_vip := false,
                              discount_percentage := 0 }) = ("ultra", 25)) ∧
    ((3:Int) < 10 ∧ (3:Int) < 5 ∧
      (referralTiering (some { total_purchases := 3, is_vip := false,
                               discount_percentage := 0 })).1 = "buyer") :=
  ⟨⟨by decide,
     (c8_referral_tiering { total_purchases := 10, is_vip := false,
                            discount_percentage := 0 }).2.1 (by decide)⟩,
   ⟨by decide, by decide,
     (c8_referral_tiering { total_purchases := 3, is_vip := false,
                            discount_percentage := 0 }).2.2.2.1
       (by decide) rfl (by decide)⟩⟩

/-- C4: when the Monger-service call fails (`engine = none`, the throw
case), `getMongerReply` returns the fixed in-character fallback reply;
its state echoes the session's stored `collectedAffirmation`,
`collectedSize`, `collectedPhrase` and checkout state unchanged, with
both readiness flags false and neutral mood, and the session store is
left exactly as it was (no field is nulled out or regressed). -/
theorem c4_fallback_echoes_state (store : SessionStore) (sessionId userInput : String)
    (s : Session) (now : Nat) (h : getSession store sessionId = some s) :
    getMongerReply store sessionId userInput none now = some (store, fallbackResponse s) ∧
    (fallbackResponse s).reply = fallbackLine ∧
    (fallbackResponse s).state.hasAffirmation = s.collectedAffirmation ∧
    (fallbackResponse s).state.size = s.collectedSize ∧
    (fallbackResponse s).state.phrase = s.collectedPhrase ∧
    (fallbackResponse s).state.checkout = s.checkoutState ∧
    (fallbackResponse s).state.readyForCheckout = false ∧
    (fallbackResponse s).state.readyForPayment = false ∧
    (fallbackResponse s).state.mood = "neutral" := by
  refine ⟨?_, rfl, rfl, rfl, rfl, rfl, rfl, rfl, rfl⟩
  simp [getMongerReply, h]

/-- Closed instance of C4: a simulated engine failure on `sampleStore`
(whose session holds a non-null collected size) leaves `collectedSize`
echoed unchanged in the returned state. -/
theorem c4_fallback_echoes_state_witness :
    getSession sampleStore "s1" = some sampleSession ∧
    (getMongerReply sampleStore "s1" "hello" none 9 =
        some (sampleStore, fallbackResponse sampleSession) ∧
      (fallbackResponse sampleSession).reply = fallbackLine ∧
      (fallbackResponse sampleSession).state.hasAffirmation =
        sampleSession.collectedAffirmation ∧
      (fallbackResponse sampleSession).state.size = sampleSession.collectedSize ∧
      (fallbackResponse sampleSession).state.phrase = sampleSession.collectedPhrase ∧
      (fallbackResponse sampleSession).state.checkout = sampleSession.checkoutState ∧
      (fallbackResponse sampleSession).state.readyForCheckout = false ∧
      (fallbackResponse sampleSession).state.readyForPayment = false ∧
      (fallbackResponse sampleSession).state.mood = "neutral") ∧
    sampleSession.collectedSize = some "l" :=
  ⟨rfl, c4_fallback_echoes_state sampleStore "s1" "hello" sampleSession 9 rfl, rfl⟩

/-- A fresh mid-conversation session with nothing collected yet. -/
def freshSession : Session :=
  { id := "s1", customerId := "c1", createdAt := 0, lastMessageAt := 0,
    conversationState := "conversation", messages := [],
    collectedSize := none, collectedPhrase := none, collectedAffirmation := false,
    referrerEmail := none, discountCode := none, checkoutState := emptyCheckout,
    diagnosticMode := false }

/-- A one-session store holding `freshSession` under id `s1`. -/
def freshStore : SessionStore := fun k => if k = "s1" then some freshSession else none

/-- An unblocked customer. -/
def plainCustomer : CustomerState :=
  { id := "c1", shirtsBought := 0, lastPurchase := none, blockedUntil := none }

/-- A customer blocked until instant 100. -/
def blockedCustomer : CustomerState :=
  { id := "c1", shirtsBought := 0, lastPurchase := none, blockedUntil := some 100 }

/-- An engine turn result that claims payment readiness while every
required field is still null. -/
def paymentFlagOnly : MongerResponse :=
  { reply := "good.  last thing.  the payment.",
    state := { hasAffirmation := false, size := none, phrase := none,
               pendingConfirmation := false, readyForCheckout := false,
               readyForPayment := true, mood := "neutral",
               wantsReferralCheck := none, checkout := emptyCheckout },
    uiHints := { skipTypewriter := false, showPaymentForm := true,
                 blocked := false, inputDisabled := false } }

/-- C1 counterexample: a turn in which the engine returns
`readyForPayment = true` with every gated field still null nevertheless
moves the session to `ready_for_payment` — the field conjunction is not
re-verified, so the claimed invariant fails immediately after this
turn. -/
theorem c1_counterexample :
    storedConvState (handleChat freshStore "s1" "hello" plainCustomer
      (some paymentFlagOnly) (Except.error "") 5).store "s1" = some "ready_for_payment" ∧
    storedSize (handleChat freshStore "s1" "hello" plainCustomer
      (some paymentFlagOnly) (Except.error "") 5).store "s1" = some none ∧
    storedPhrase (handleChat freshStore "s1" "hello" plainCustomer
      (some paymentFlagOnly) (Except.error "") 5).store "s1" = some none ∧
    storedAffirmation (handleChat freshStore "s1" "hello" plainCustomer
      (some paymentFlagOnly) (Except.error "") 5).store "s1" = some false ∧
    storedCheckout (handleChat freshStore "s1" "hello" plainCustomer
      (some paymentFlagOnly) (Except.error "") 5).store "s1" = some emptyCheckout := by
  decide

/-- C1 (amended): the state machine trusts the engine's flag verbatim.
After a persona turn whose engine call succeeds with result `r`, the
session's conversation state is exactly the one computed from `r`'s
readiness flags (`ready_for_payment` precisely when
`r.state.readyForPayment` is true), and the collected and checkout
fields are overwritten with `r`'s values with no re-verification — so
`ready_for_payment` can be reached with null fields. -/
theorem c1_ready_flag_trusted (store : SessionStore) (sessionId userInput : String)
    (customer : CustomerState) (r : MongerResponse) (diagEngine : Except String String)
    (now : Nat) (s : Session)
    (h : getSession store sessionId = some s) (hd : s.diagnosticMode = false)
    (he : shouldEnterDiagnostic userInput = false)
    (hb : isCustomerBlocked customer now = false)
    (hsid : sessionId ≠ "") (hu : userInput ≠ "") :
    storedConvState (handleChat store sessionId userInput customer
        (some r) diagEngine now).store sessionId = some (convStateOf r.state) ∧
    (r.state.readyForPayment = true →
      storedConvState (handleChat store sessionId userInput customer
        (some r) diagEngine now).store sessionId = some "ready_for_payment") ∧
    storedSize (handleChat store sessionId userInput customer
        (some r) diagEngine now).store sessionId = some r.state.size ∧
    storedPhrase (handleChat store sessionId userInput customer
        (some r) diagEngine now).store sessionId = some r.state.phrase ∧
    storedAffirmation (handleChat store sessionId userInput customer
        (some r) diagEngine now).store sessionId = some r.state.hasAffirmation ∧
    storedCheckout (handleChat store sessionId userInput customer
        (some r) diagEngine now).store sessionId = some r.state.checkout := by
  have h3 := getSession_personaStore store sessionId userInput r now s h
  rw [handleChat_persona store sessionId userInput customer r diagEngine now s
    h hd he hb hsid hu]
  refine ⟨?_, ?_, ?_, ?_, ?_, ?_⟩
  · simp [storedConvState, h3]
  · intro hp
    simp [storedConvState, h3, convStateOf, hp]
  · simp [storedSize, h3]
  · simp [storedPhrase, h3]
  · simp [storedAffirmation, h3]
  · simp [storedCheckout, h3]

/-- Closed instance of the amended C1 on a concrete turn. -/
theorem c1_ready_flag_trusted_witness :
    (getSession freshStore "s1" = some freshSession ∧
     freshSession.diagnosticMode = false ∧
     shouldEnterDiagnostic "hello" = false ∧
     isCustomerBlocked plainCustomer 5 = false ∧
     "s1" ≠ "" ∧ "hello" ≠ "") ∧
    (storedConvState (handleChat freshStore "s1" "hello" plainCustomer
        (some paymentFlagOnly) (Except.error "") 5).store "s1" =
        some (convStateOf paymentFlagOnly.state) ∧
     (paymentFlagOnly.state.readyForPayment = true →
       storedConvState (handleChat freshStore "s1" "hello" plainCustomer
        (some paymentFlagOnly) (Except.error "") 5).store "s1" =
        some "ready_for_payment") ∧
     storedSize (handleChat freshStore "s1" "hello" plainCustomer
        (some paymentFlagOnly) (Except.error "") 5).store "s1" =
        some paymentFlagOnly.state.size ∧
     storedPhrase (handleChat freshStore "s1" "hello" plainCustomer
        (some paymentFlagOnly) (Except.error "") 5).store "s1" =
        some paymentFlagOnly.state.phrase ∧
     storedAffirmation (handleChat freshStore "s1" "hello" plainCustomer
        (some paymentFlagOnly) (Except.error "") 5).store "s1" =
        some paymentFlagOnly.state.hasAffirmation ∧
     storedCheckout (handleChat freshStore "s1" "hello" plainCustomer
        (some paymentFlagOnly) (Except.error "") 5).store "s1" =
        some paymentFlagOnly.state.checkout) :=
  ⟨⟨rfl, rfl, by decide, rfl, by decide, by decide⟩,
   c1_ready_flag_trusted freshStore "s1" "hello" plainCustomer paymentFlagOnly
     (Except.error "") 5 freshSession rfl rfl (by decide) rfl (by decide) (by decide)⟩

lemma convStateOf_collecting_iff (st : MongerState) :
    convStateOf st = "collecting_shipping" ↔
      (st.readyForCheckout = true ∧ st.readyForPayment = false) := by
  unfold convStateOf
  rcases hP : st.readyForPayment <;> rcases hC : st.readyForCheckout <;> simp

/-- An engine turn result that claims checkout readiness while
affirmation, size and phrase are all still missing. -/
def checkoutFlagOnly : MongerResponse :=
  { reply := "alright.  where is this going?",
    state := { hasAffirmation := false, size := none, phrase := none,
               pendingConfirmation := false, readyForCheckout := true,
               readyForPayment := false, mood := "neutral",
               wantsReferralCheck := none, checkout := emptyCheckout },
    uiHints := { skipTypewriter := false, showPaymentForm := false,
                 blocked := false, inputDisabled := false } }

/-- C2 counterexample: an engine turn result with
`readyForCheckout = true` but `hasAffirmation = false` and null size
and phrase still moves the session to `collecting_shipping`, and the
turn is answered with the engine's own reply rather than being treated
as malformed output and routed to the fallback. -/
theorem c2_counterexample :
    storedConvState (handleChat freshStore "s1" "hello" plainCustomer
      (some checkoutFlagOnly) (Except.error "") 5).store "s1" =
      some "collecting_shipping" ∧
    storedSize (handleChat freshStore "s1" "hello" plainCustomer
      (some checkoutFlagOnly) (Except.error "") 5).store "s1" = some none ∧
    storedPhrase (handleChat freshStore "s1" "hello" plainCustomer
      (some checkoutFlagOnly) (Except.error "") 5).store "s1" = some none ∧
    storedAffirmation (handleChat freshStore "s1" "hello" plainCustomer
      (some checkoutFlagOnly) (Except.error "") 5).store "s1" = some false ∧
    outcomeReply (handleChat freshStore "s1" "hello" plainCustomer
      (some checkoutFlagOnly) (Except.error "") 5).outcome =
      some "alright.  where is this going?" ∧
    outcomeReply (handleChat freshStore "s1" "hello" plainCustomer
      (some checkoutFlagOnly) (Except.error "") 5).outcome ≠ some fallbackLine := by
  refine ⟨by decide, by decide, by decide, by decide, by decide, by decide⟩

/-- C2 (amended): after a persona turn whose engine call succeeds with
result `r`, the session moves to `collecting_shipping` exactly when
`r.state.readyForCheckout` is true and `r.state.readyForPayment` is
false — the three collected fields are not re-verified, flag-without-
fields is not treated as malformed, no fallback path is taken (the
reply is the engine's own), and the engine's field values are stored
verbatim. -/
theorem c2_checkout_flag_alone (store : SessionStore) (sessionId userInput : String)
    (customer : CustomerState) (r : MongerResponse) (diagEngine : Except String String)
    (now : Nat) (s : Session)
    (h : getSession store sessionId = some s) (hd : s.diagnosticMode = false)
    (he : shouldEnterDiagnostic userInput = false)
    (hb : isCustomerBlocked customer now = false)
    (hsid : sessionId ≠ "") (hu : userInput ≠ "") :
    (storedConvState (handleChat store sessionId userInput customer
        (some r) diagEngine now).store sessionId = some "collecting_shipping" ↔
      (r.state.readyForCheckout = true ∧ r.state.readyForPayment = false)) ∧
    outcomeReply (handleChat store sessionId userInput customer
        (some r) diagEngine now).outcome = some r.reply ∧
    storedSize (handleChat store sessionId userInput customer
        (some r) diagEngine now).store sessionId = some r.state.size ∧
    storedAffirmation (handleChat store sessionId userInput customer
        (some r) diagEngine now).store sessionId = some r.state.hasAffirmation := by
  have h3 := getSession_personaStore store sessionId userInput r now s h
  rw [handleChat_persona store sessionId userInput customer r diagEngine now s
    h hd he hb hsid hu]
  refine ⟨?_, ?_, ?_, ?_⟩
  · simp [storedConvState, h3, convStateOf_collecting_iff]
  · simp [outcomeReply, personaResponse]
  · simp [storedSize, h3]
  · simp [storedAffirmation, h3]

/-- Closed instance of the amended C2 on a concrete turn. -/
theorem c2_checkout_flag_alone_witness :
    (getSession freshStore "s1" = some freshSession ∧
     freshSession.diagnosticMode = false ∧
     shouldEnterDiagnostic "hello" = false ∧
     isCustomerBlocked plainCustomer 5 = false ∧
     "s1" ≠ "" ∧ "hello" ≠ "") ∧
    ((storedConvState (handleChat freshStore "s1" "hello" plainCustomer
        (some checkoutFlagOnly) (Except.error "") 5).store "s1" =
        some "collecting_shipping" ↔
      (checkoutFlagOnly.state.readyForCheckout = true ∧
       checkoutFlagOnly.state.readyForPayment = false)) ∧
     outcomeReply (handleChat freshStore "s1" "hello" plainCustomer
        (some checkoutFlagOnly) (Except.error "") 5).outcome =
        some checkoutFlagOnly.reply ∧
     storedSize (handleChat freshStore "s1" "hello" plainCustomer
        (some checkoutFlagOnly) (Except.error "") 5).store "s1" =
        some checkoutFlagOnly.state.size ∧
     storedAffirmation (handleChat freshStore "s1" "hello" plainCustomer
        (some checkoutFlagOnly) (Except.error "") 5).store "s1" =
        some checkoutFlagOnly.state.hasAffirmation) :=
  ⟨⟨rfl, rfl, by decide, rfl, by decide, by decide⟩,
   c2_checkout_flag_alone freshStore "s1" "hello" plainCustomer checkoutFlagOnly
     (Except.error "") 5 freshSession rfl rfl (by decide) rfl (by decide) (by decide)⟩

/-- A session already in diagnostic mode. -/
def diagSession : Session :=
  { freshSession with conversationState := "diagnostic", diagnosticMode := true }

/-- A one-session store holding `diagSession` under id `s1`. -/
def diagStore : SessionStore := fun k => if k = "s1" then some diagSession else none

set_option maxRecDepth 4096 in
/-- C5 counterexample: the blocked check runs only after the diagnostic
branches.  A blocked customer (blocked until 100, now 5) who types the
trigger phrase `diagnostic` receives the diagnostic entry message —
with `blocked = false` and `inputDisabled = false` in the UI hints —
not the fixed block line; and a blocked customer whose session is
already in diagnostic mode gets a Monger-service diagnostic-chat call
(one call, not zero). -/
theorem c5_counterexample :
    isCustomerBlocked blockedCustomer 5 = true ∧
    outcomeReply (handleChat freshStore "s1" "diagnostic" blockedCustomer
      none (Except.error "") 5).outcome = some getDiagnosticEntryMessage ∧
    outcomeReply (handleChat freshStore "s1" "diagnostic" blockedCustomer
      none (Except.error "") 5).outcome ≠ some blockLine ∧
    outcomeHints (handleChat freshStore "s1" "diagnostic" blockedCustomer
      none (Except.error "") 5).outcome =
      some { skipTypewriter := true, showPaymentForm := false,
             blocked := false, inputDisabled := false } ∧
    (handleChat diagStore "s1" "hello" blockedCustomer
      none (Except.ok "llm is up") 5).diagnosticCalls = 1 := by
  refine ⟨rfl, by decide, by decide, by decide, by decide⟩

/-- C5 (amended): the blocked short-circuit holds only for ordinary
persona turns.  For a turn whose session is not in diagnostic mode and
whose input is not a diagnostic entry trigger, a customer with
`blockedUntil` in the future gets the fixed block line with
`blocked = true` and `inputDisabled = true`, with zero calls to either
Monger-service endpoint and no session change; diagnostic entry/exit
and diagnostic chat are checked earlier and take precedence over the
block. -/
theorem c5_blocked_short_circuit (store : SessionStore) (sessionId userInput : String)
    (customer : CustomerState) (engine : Option MongerResponse)
    (diagEngine : Except String String) (now : Nat) (s : Session)
    (h : getSession store sessionId = some s) (hd : s.diagnosticMode = false)
    (he : shouldEnterDiagnostic userInput = false)
    (hb : isCustomerBlocked customer now = true)
    (hsid : sessionId ≠ "") (hu : userInput ≠ "") :
    (handleChat store sessionId userInput customer engine diagEngine now).personaCalls = 0 ∧
    (handleChat store sessionId userInput customer engine diagEngine now).diagnosticCalls = 0 ∧
    (handleChat store sessionId userInput customer engine diagEngine now).outcome =
      .reply blockedResponse ∧
    blockedResponse.mongerReply = blockLine ∧
    blockedResponse.uiHints.blocked = true ∧
    blockedResponse.uiHints.inputDisabled = true ∧
    (handleChat store sessionId userInput customer engine diagEngine now).store = store := by
  rw [handleChat_blocked store sessionId userInput customer engine diagEngine now s
    h hd he hb hsid hu]
  exact ⟨rfl, rfl, rfl, rfl, rfl, rfl, rfl⟩

/-- Closed instance of the amended C5: an ordinary turn from a blocked
customer is answered with the block line without any engine call. -/
theorem c5_blocked_short_circuit_witness :
    (getSession freshStore "s1" = some freshSession ∧
     freshSession.diagnosticMode = false ∧
     shouldEnterDiagnostic "hello" = false ∧
     isCustomerBlocked blockedCustomer 5 = true ∧
     "s1" ≠ "" ∧ "hello" ≠ "") ∧
    ((handleChat freshStore "s1" "hello" blockedCustomer none
        (Except.error "") 5).personaCalls = 0 ∧
     (handleChat freshStore "s1" "hello" blockedCustomer none
        (Except.error "") 5).diagnosticCalls = 0 ∧
     (handleChat freshStore "s1" "hello" blockedCustomer none
        (Except.error "") 5).outcome = .reply blockedResponse ∧
     blockedResponse.mongerReply = blockLine ∧
     blockedResponse.uiHints.blocked = true ∧
     blockedResponse.uiHints.inputDisabled = true ∧
     (handleChat freshStore "s1" "hello" blockedCustomer none
        (Except.error "") 5).store = freshStore) :=
  ⟨⟨rfl, rfl, by decide, rfl, by decide, by decide⟩,
   c5_blocked_short_circuit freshStore "s1" "hello" blockedCustomer none
     (Except.error "") 5 freshSession rfl rfl (by decide) rfl (by decide) (by decide)⟩

lemma shouldEnterDiagnostic_iff (v : String) :
    shouldEnterDiagnostic v = true ↔
      (jsLowerTrim v = "diagnostic".data ∨
       jsLowerTrim v = "enter diagnostic".data ∨
       jsLowerTrim v = "diagnostic mode".data ∨
       beginsWith (jsLowerTrim v) ("diagnostic".data ++ [' ']) = true ∨
       beginsWith (jsLowerTrim v) ("enter diagnostic".data ++ [' ']) = true ∨
       beginsWith (jsLowerTrim v) ("diagnostic mode".data ++ [' ']) = true) := by
  simp [shouldEnterDiagnostic, DIAGNOSTIC_ENTER_PHRASES, List.any_cons, List.any_nil,
        Bool.or_eq_true, beq_iff_eq]
  tauto

set_option maxRecDepth 8192 in
/-- C6: entry into diagnostic mode is decided from the raw user input
before any Monger-service call and is trigger-exact.  The predicate
holds exactly when the lowercased, trimmed input equals one of
`diagnostic`, `enter diagnostic`, `diagnostic mode` or begins with one
of them followed by a space; `diagnostics` does not trigger while
`diagnostic` does; a session not in diagnostic mode ends the turn in
diagnostic mode precisely when the predicate holds; on entry neither
engine endpoint is called and the reply is the entry message, which
contains the exit instructions. -/
theorem c6_diag_entry_trigger_exact (store : SessionStore) (sessionId userInput : String)
    (customer : CustomerState) (engine : Option MongerResponse)
    (diagEngine : Except String String) (now : Nat) (s : Session)
    (h : getSession store sessionId = some s) (hd : s.diagnosticMode = false)
    (hsid : sessionId ≠ "") (hu : userInput ≠ "") :
    (∀ v : String, shouldEnterDiagnostic v = true ↔
      (jsLowerTrim v = "diagnostic".data ∨
       jsLowerTrim v = "enter diagnostic".data ∨
       jsLowerTrim v = "diagnostic mode".data ∨
       beginsWith (jsLowerTrim v) ("diagnostic".data ++ [' ']) = true ∨
       beginsWith (jsLowerTrim v) ("enter diagnostic".data ++ [' ']) = true ∨
       beginsWith (jsLowerTrim v) ("diagnostic mode".data ++ [' ']) = true)) ∧
    shouldEnterDiagnostic "diagnostics" = false ∧
    shouldEnterDiagnostic "diagnostic" = true ∧
    storedDiagMode (handleChat store sessionId userInput customer engine
        diagEngine now).store sessionId = some (shouldEnterDiagnostic userInput) ∧
    (shouldEnterDiagnostic userInput = true →
      (handleChat store sessionId userInput customer engine diagEngine now).personaCalls = 0 ∧
      (handleChat store sessionId userInput customer engine diagEngine now).diagnosticCalls = 0 ∧
      (handleChat store sessionId userInput customer engine diagEngine now).outcome =
        .reply (entryResponse s)) ∧
    (∃ pre post, getDiagnosticEntryMessage =
      pre ++ "Say \"leave diagnostic\" to return me to character." ++ post) := by
  refine ⟨shouldEnterDiagnostic_iff, by decide, by decide, ?_, ?_, ?_⟩
  · by_cases hE : shouldEnterDiagnostic userInput = true
    · rw [handleChat_enter store sessionId userInput customer engine diagEngine now s
        h hd hE hsid hu]
      have h' := getSession_updateSession store sessionId
        { conversationState := some "diagnostic", diagnosticMode := some true } now s h
      simp [storedDiagMode, h', applyUpdates, hE]
    · have hE' : shouldEnterDiagnostic userInput = false := by
        simpa using hE
      by_cases hB : isCustomerBlocked customer now = true
      · rw [handleChat_blocked store sessionId userInput customer engine diagEngine now s
          h hd hE' hB hsid hu]
        simp [storedDiagMode, h, hd, hE']
      · have hB' : isCustomerBlocked customer now = false := by
          simpa using hB
        cases engine with
        | none =>
            rw [handleChat_persona_fail store sessionId userInput customer diagEngine now s
              h hd hE' hB' hsid hu]
            simp [storedDiagMode, h, hd, hE']
        | some r =>
            rw [handleChat_persona store sessionId userInput customer r diagEngine now s
              h hd hE' hB' hsid hu]
            have h3 := getSession_personaStore store sessionId userInput r now s h
            simp [storedDiagMode, h3, hd, hE']
  · intro hE
    rw [handleChat_enter store sessionId userInput customer engine diagEngine now s
      h hd hE hsid hu]
    exact ⟨rfl, rfl, rfl⟩
  · refine ⟨"[DIAGNOSTIC MODE ENABLED]\n\nI\x27ve dropped character. I\x27m now a helpful assistant for the cheeseshirt system.\n\nYou can ask me about:\n• Service health and versions\n• Log files (try \"show me the api logs\")  \n• System status\n• Troubleshooting help\n\n", "", ?_⟩
    decide

/-- Closed instance of C6: the input `diagnostic` flips `freshSession`
into diagnostic mode with no engine calls. -/
theorem c6_diag_entry_trigger_exact_witness :
    (getSession freshStore "s1" = some freshSession ∧
     freshSession.diagnosticMode = false ∧ "s1" ≠ "" ∧ "diagnostic" ≠ "") ∧
    (shouldEnterDiagnostic "diagnostics" = false ∧
     shouldEnterDiagnostic "diagnostic" = true ∧
     storedDiagMode (handleChat freshStore "s1" "diagnostic" plainCustomer none
        (Except.error "") 5).store "s1" = some (shouldEnterDiagnostic "diagnostic") ∧
     (shouldEnterDiagnostic "diagnostic" = true →
       (handleChat freshStore "s1" "diagnostic" plainCustomer none
          (Except.error "") 5).personaCalls = 0 ∧
       (handleChat freshStore "s1" "diagnostic" plainCustomer none
          (Except.error "") 5).diagnosticCalls = 0 ∧
       (handleChat freshStore "s1" "diagnostic" plainCustomer none
          (Except.error "") 5).outcome = .reply (entryResponse freshSession)) ∧
     (∃ pre post, getDiagnosticEntryMessage =
       pre ++ "Say \"leave diagnostic\" to return me to character." ++ post)) :=
  ⟨⟨rfl, rfl, by decide, by decide⟩,
   ((c6_diag_entry_trigger_exact freshStore "s1" "diagnostic" plainCustomer none
      (Except.error "") 5 freshSession rfl rfl (by decide) (by decide)).2)⟩

/-- A diagnostic-mode session that already has a collected size, phrase,
affirmation and some message history. -/
def diagPhraseSession : Session :=
  { diagSession with
    collectedSize := some "m", collectedPhrase := some "cut the red wire",
    collectedAffirmation := true,
    messages := [{ role := "user", content := "diagnostic", timestamp := 2 },
                 { role := "assistant", content := "ok", timestamp := 3 }] }

/-- A one-session store holding `diagPhraseSession` under id `s1`. -/
def diagPhraseStore : SessionStore :=
  fun k => if k = "s1" then some diagPhraseSession else none

lemma getSession_exitStore (store : SessionStore) (sessionId : String) (now : Nat)
    (s : Session) (h : getSession store sessionId = some s) :
    getSession (updateSession (clearMessages store sessionId) sessionId
      { conversationState := some "conversation", diagnosticMode := some false } now).1
      sessionId =
      some { s with messages := [], lastMessageAt := now,
                    conversationState := "conversation", diagnosticMode := false } := by
  have h' : store sessionId = some s := h
  simp [clearMessages, updateSession, getSession, storeSet, h', applyUpdates]

/-- C7: an exit-trigger turn in diagnostic mode clears the session's
message history, returns the conversation state to `conversation` with
diagnostic mode off, and leaves `collectedAffirmation`,
`collectedSize`, `collectedPhrase` and the checkout state exactly as
they were before the turn; the reply is the exit message and neither
engine endpoint is called. -/
theorem c7_exit_clears_history (store : SessionStore) (sessionId userInput : String)
    (customer : CustomerState) (engine : Option MongerResponse)
    (diagEngine : Except String String) (now : Nat) (s : Session)
    (h : getSession store sessionId = some s) (hd : s.diagnosticMode = true)
    (hx : shouldExitDiagnostic userInput = true)
    (hsid : sessionId ≠ "") (hu : userInput ≠ "") :
    storedMessages (handleChat store sessionId userInput customer engine
        diagEngine now).store sessionId = some [] ∧
    storedConvState (handleChat store sessionId userInput customer engine
        diagEngine now).store sessionId = some "conversation" ∧
    storedDiagMode (handleChat store sessionId userInput customer engine
        diagEngine now).store sessionId = some false ∧
    storedAffirmation (handleChat store sessionId userInput customer engine
        diagEngine now).store sessionId = some s.collectedAffirmation ∧
    storedSize (handleChat store sessionId userInput customer engine
        diagEngine now).store sessionId = some s.collectedSize ∧
    storedPhrase (handleChat store sessionId userInput customer engine
        diagEngine now).store sessionId = some s.collectedPhrase ∧
    storedCheckout (handleChat store sessionId userInput customer engine
        diagEngine now).store sessionId = some s.checkoutState ∧
    (handleChat store sessionId userInput customer engine diagEngine now).outcome =
      .reply (exitResponse s) ∧
    (handleChat store sessionId userInput customer engine diagEngine now).personaCalls = 0 ∧
    (handleChat store sessionId userInput customer engine diagEngine now).diagnosticCalls = 0 := by
  have h' := getSession_exitStore store sessionId now s h
  rw [handleChat_exit store sessionId userInput customer engine diagEngine now s
    h hd hx hsid hu]
  refine ⟨?_, ?_, ?_, ?_, ?_, ?_, ?_, rfl, rfl, rfl⟩ <;>
    simp [storedMessages, storedConvState, storedDiagMode, storedAffirmation,
          storedSize, storedPhrase, storedCheckout, h']

/-- Closed instance of C7: exiting diagnostic mode from a session with a
collected size and a message history clears the history and preserves
the collected fields. -/
theorem c7_exit_clears_history_witness :
    (getSession diagPhraseStore "s1" = some diagPhraseSession ∧
     diagPhraseSession.diagnosticMode = true ∧
     shouldExitDiagnostic "leave diagnostic" = true ∧
     "s1" ≠ "" ∧ "leave diagnostic" ≠ "") ∧
    (storedMessages (handleChat diagPhraseStore "s1" "leave diagnostic" plainCustomer
        none (Except.error "") 6).store "s1" = some [] ∧
     storedConvState (handleChat diagPhraseStore "s1" "leave diagnostic" plainCustomer
        none (Except.error "") 6).store "s1" = some "conversation" ∧
     storedDiagMode (handleChat diagPhraseStore "s1" "leave diagnostic" plainCustomer
        none (Except.error "") 6).store "s1" = some false ∧
     storedAffirmation (handleChat diagPhraseStore "s1" "leave diagnostic" plainCustomer
        none (Except.error "") 6).store "s1" = some diagPhraseSession.collectedAffirmation ∧
     storedSize (handleChat diagPhraseStore "s1" "leave diagnostic" plainCustomer
        none (Except.error "") 6).store "s1" = some diagPhraseSession.collectedSize ∧
     storedPhrase (handleChat diagPhraseStore "s1" "leave diagnostic" plainCustomer
        none (Except.error "") 6).store "s1" = some diagPhraseSession.collectedPhrase ∧
     storedCheckout (handleChat diagPhraseStore "s1" "leave diagnostic" plainCustomer
        none (Except.error "") 6).store "s1" = some diagPhraseSession.checkoutState ∧
     (handleChat diagPhraseStore "s1" "leave diagnostic" plainCustomer
        none (Except.error "") 6).outcome = .reply (exitResponse diagPhraseSession) ∧
     (handleChat diagPhraseStore "s1" "leave diagnostic" plainCustomer
        none (Except.error "") 6).personaCalls = 0 ∧
     (handleChat diagPhraseStore "s1" "leave diagnostic" plainCustomer
        none (Except.error "") 6).diagnosticCalls = 0) :=
  ⟨⟨rfl, rfl, by decide, by decide, by decide⟩,
   c7_exit_clears_history diagPhraseStore "s1" "leave diagnostic" plainCustomer none
     (Except.error "") 6 diagPhraseSession rfl rfl (by decide) (by decide) (by decide)⟩

/-- A session awaiting payment with all order fields collected. -/
def paidSession : Session :=
  { freshSession with
    conversationState := "ready_for_payment",
    collectedSize := some "l", collectedPhrase := some "cut the red wire",
    collectedAffirmation := true }

/-- A one-session store holding `paidSession` under id `s1`. -/
def paidStore : SessionStore := fun k => if k = "s1" then some paidSession else none

/-- The webhook-visible state for the C3 scenario: `paidStore` plus a
customer ledger where every customer has bought zero shirts. -/
def webhookCtx : WebhookCtx := { store := paidStore, customers := fun _ => plainCustomer }

/-- The payment-intent metadata correlated with session `s1`. -/
def paidMeta : PaymentIntentMetadata :=
  { session_id := some "s1", size := some "l", phrase := some "cut the red wire" }

/-- C3 counterexample: delivering the same `payment_intent.succeeded`
event twice does transition the session to `purchase_complete`, but the
customer's `shirtsBought` counter is not incremented exactly once — it
is not incremented at all (the handler never touches customer state;
the counter stays at its initial 0 instead of the claimed 1). -/
theorem c3_counterexample :
    ((handlePaymentSucceeded (handlePaymentSucceeded webhookCtx paidMeta 10)
        paidMeta 20).customers "c1").shirtsBought = 0 ∧
    ¬ (((handlePaymentSucceeded (handlePaymentSucceeded webhookCtx paidMeta 10)
        paidMeta 20).customers "c1").shirtsBought =
      (webhookCtx.customers "c1").shirtsBought + 1) ∧
    storedConvState (handlePaymentSucceeded (handlePaymentSucceeded webhookCtx paidMeta 10)
        paidMeta 20).store "s1" = some "purchase_complete" := by
  refine ⟨rfl, by decide, by decide⟩

/-- C3 (amended): the `payment_intent.succeeded` handler transitions the
correlated session to `purchase_complete` and is idempotent on session
state — a second delivery of the same event leaves the stored session
unchanged — but it never modifies any customer's `shirtsBought`
counter (zero increments, not one: the source defers customer state to
the frontend cookie). -/
theorem c3_webhook_idempotent_no_increment (ctx : WebhookCtx)
    (metadata : PaymentIntentMetadata) (sid : String) (now : Nat) (s : Session)
    (hm : metadata.session_id = some sid) (hsid : sid ≠ "")
    (h : getSession ctx.store sid = some s) :
    (handlePaymentSucceeded ctx metadata now).customers = ctx.customers ∧
    (handlePaymentSucceeded (handlePaymentSucceeded ctx metadata now)
        metadata now).customers = ctx.customers ∧
    (∀ cid, ((handlePaymentSucceeded (handlePaymentSucceeded ctx metadata now)
        metadata now).customers cid).shirtsBought = (ctx.customers cid).shirtsBought) ∧
    storedConvState (handlePaymentSucceeded ctx metadata now).store sid =
      some "purchase_complete" ∧
    getSession (handlePaymentSucceeded (handlePaymentSucceeded ctx metadata now)
        metadata now).store sid =
      getSession (handlePaymentSucceeded ctx metadata now).store sid ∧
    storedConvState (handlePaymentSucceeded (handlePaymentSucceeded ctx metadata now)
        metadata now).store sid = some "purchase_complete" := by
  have hs1 := getSession_updateSession ctx.store sid
    { conversationState := some "purchase_complete", collectedAffirmation := some true,
      collectedSize := some metadata.size, collectedPhrase := some metadata.phrase } now s h
  have e1 : handlePaymentSucceeded ctx metadata now =
      { ctx with store := (updateSession ctx.store sid
        { conversationState := some "purchase_complete", collectedAffirmation := some true,
          collectedSize := some metadata.size,
          collectedPhrase := some metadata.phrase } now).1 } := by
    simp [handlePaymentSucceeded, hm, hsid, h]
  have hs2 := getSession_updateSession
    (updateSession ctx.store sid
      { conversationState := some "purchase_complete", collectedAffirmation := some true,
        collectedSize := some metadata.size, collectedPhrase := some metadata.phrase } now).1
    sid
    { conversationState := some "purchase_complete", collectedAffirmation := some true,
      collectedSize := some metadata.size, collectedPhrase := some metadata.phrase } now
    _ hs1
  have e2 : handlePaymentSucceeded (handlePaymentSucceeded ctx metadata now) metadata now =
      { ctx with store := (updateSession
        (updateSession ctx.store sid
          { conversationState := some "purchase_complete", collectedAffirmation := some true,
            collectedSize := some metadata.size,
            collectedPhrase := some metadata.phrase } now).1 sid
        { conversationState := some "purchase_complete", collectedAffirmation := some true,
          collectedSize := some metadata.size,
          collectedPhrase := some metadata.phrase } now).1 } := by
    rw [e1]
    simp [handlePaymentSucceeded, hm, hsid, hs1]
  have hfix : applyUpdates (applyUpdates s
      { conversationState := some "purchase_complete", collectedAffirmation := some true,
        collectedSize := some metadata.size, collectedPhrase := some metadata.phrase } now)
      { conversationState := some "purchase_complete", collectedAffirmation := some true,
        collectedSize := some metadata.size, collectedPhrase := some metadata.phrase } now =
      applyUpdates s
      { conversationState := some "purchase_complete", collectedAffirmation := some true,
        collectedSize := some metadata.size, collectedPhrase := some metadata.phrase } now := rfl
  refine ⟨?_, ?_, ?_, ?_, ?_, ?_⟩
  · rw [e1]
  · rw [e2]
  · intro cid
    rw [e2]
  · rw [e1]
    simp [storedConvState, hs1, applyUpdates]
  · rw [e2, e1]
    rw [hs2, hs1, hfix]
  · rw [e2]
    rw [storedConvState, hs2, hfix]
    simp [applyUpdates]

/-- Closed instance of the amended C3 on the concrete webhook scenario. -/
theorem c3_webhook_idempotent_no_increment_witness :
    (paidMeta.session_id = some "s1" ∧ "s1" ≠ "" ∧
     getSession webhookCtx.store "s1" = some paidSession) ∧
    ((handlePaymentSucceeded webhookCtx paidMeta 10).customers = webhookCtx.customers ∧
     (handlePaymentSucceeded (handlePaymentSucceeded webhookCtx paidMeta 10)
        paidMeta 10).customers = webhookCtx.customers ∧
     (∀ cid, ((handlePaymentSucceeded (handlePaymentSucceeded webhookCtx paidMeta 10)
        paidMeta 10).customers cid).shirtsBought =
        (webhookCtx.customers cid).shirtsBought) ∧
     storedConvState (handlePaymentSucceeded webhookCtx paidMeta 10).store "s1" =
        some "purchase_complete" ∧
     getSession (handlePaymentSucceeded (handlePaymentSucceeded webhookCtx paidMeta 10)
        paidMeta 10).store "s1" =
        getSession (handlePaymentSucceeded webhookCtx paidMeta 10).store "s1" ∧
     storedConvState (handlePaymentSucceeded (handlePaymentSucceeded webhookCtx paidMeta 10)
        paidMeta 10).store "s1" = some "purchase_complete") :=
  ⟨⟨rfl, by decide, rfl⟩,
   c3_webhook_idempotent_no_increment webhookCtx paidMeta "s1" 10 paidSession
     rfl (by decide) rfl⟩

end Cheeseshirt
